import Mathlib

/-!
Verification of `src/servers/fastapi/utils/template_llm_provider.py`.

The module decides which LLM provider to use for template generation from two
external signals: the override setting (`TEMPLATE_LLM_PROVIDER`, read by
`get_template_llm_provider_env`, a string or unset) and the provider already
resolved for content generation (`get_llm_provider`). We embed the decision
function and its two boolean wrappers with the two external lookups passed as
explicit inputs.
-/

namespace TemplateLLMProvider

/-- Modelled from the spec: the `LLMProvider` enumeration lives in
`enums/llm_provider.py`, which is not part of the supplied excerpt. The spec
declares a closed set holding at minimum a hosted API kind (`OPENAI`), and two
local kinds (`OLLAMA` = local-kind-A, `CUSTOM` = local-kind-B); the source file
references exactly these three members. Two further hosted kinds (`GOOGLE`,
`ANTHROPIC`) are included so that statements about "any other non-local
provider" are non-vacuous. -/
inductive LLMProvider
  | OPENAI
  | GOOGLE
  | ANTHROPIC
  | OLLAMA
  | CUSTOM
  deriving DecidableEq

/-- Embedding of `get_template_llm_provider`. The override setting (a string
or unset, hence `Option String`; in Python `None == "api"` is `False`) and the
content provider are the values returned by the two external lookups, passed
here as inputs. -/
def get_template_llm_provider (template_provider_setting : Option String)
    (content_provider : LLMProvider) : LLMProvider :=
  if template_provider_setting = some "api" then
    LLMProvider.OPENAI
  else if template_provider_setting = some "local" then
    content_provider
  else if [LLMProvider.OLLAMA, LLMProvider.CUSTOM].contains content_provider then
    content_provider
  else
    LLMProvider.OPENAI

/-- Embedding of `should_use_local_model_for_templates`:
`get_template_llm_provider() in [LLMProvider.OLLAMA, LLMProvider.CUSTOM]`. -/
def should_use_local_model_for_templates (template_provider_setting : Option String)
    (content_provider : LLMProvider) : Bool :=
  [LLMProvider.OLLAMA, LLMProvider.CUSTOM].contains
    (get_template_llm_provider template_provider_setting content_provider)

/-- Embedding of `should_use_api_model_for_templates`:
`get_template_llm_provider() == LLMProvider.OPENAI`. -/
def should_use_api_model_for_templates (template_provider_setting : Option String)
    (content_provider : LLMProvider) : Bool :=
  get_template_llm_provider template_provider_setting content_provider == LLMProvider.OPENAI

/-- Embedding of the call as performed at runtime, where the two external
collaborators may fail: the Python body calls `get_template_llm_provider_env()`
and then `get_llm_provider()` with no `try`/`except`, so an exception raised by
either lookup aborts the call. Exception semantics are embedded with the
`Except` monad. -/
def get_template_llm_provider_from {ε : Type} (envLookup : Except ε (Option String))
    (providerLookup : Except ε LLMProvider) : Except ε LLMProvider := do
  let template_provider_setting ← envLookup
  let content_provider ← providerLookup
  pure (get_template_llm_provider template_provider_setting content_provider)

/-- C1: whenever the override setting is the string "api",
`get_template_llm_provider` returns `LLMProvider.OPENAI`, for every content
provider, local kinds included. -/
theorem api_override_wins (c : LLMProvider) :
    get_template_llm_provider (some "api") c = LLMProvider.OPENAI := rfl

/-- C2: whenever the override setting is the string "local" (which is in
particular not "api"), `get_template_llm_provider` returns the content
provider verbatim, whatever its kind — including `OPENAI` itself. -/
theorem local_override_returns_content_provider (c : LLMProvider) :
    get_template_llm_provider (some "local") c = c := rfl

/-- C3: when the override setting is unset, `get_template_llm_provider`
returns the content provider unchanged when it is `OLLAMA` or `CUSTOM`, and
`LLMProvider.OPENAI` for every other content provider. -/
theorem unset_override_default_policy (c : LLMProvider) :
    get_template_llm_provider none c =
      if c = LLMProvider.OLLAMA ∨ c = LLMProvider.CUSTOM then c else LLMProvider.OPENAI := by
  cases c <;> rfl

/-- C4: `should_use_local_model_for_templates` is true exactly when
`get_template_llm_provider` on the same inputs yields `OLLAMA` or `CUSTOM`,
for every override setting and content provider. -/
theorem should_use_local_iff (s : Option String) (c : LLMProvider) :
    should_use_local_model_for_templates s c = true ↔
      (get_template_llm_provider s c = LLMProvider.OLLAMA ∨
       get_template_llm_provider s c = LLMProvider.CUSTOM) := by
  unfold should_use_local_model_for_templates
  generalize get_template_llm_provider s c = p
  cases p <;> decide

/-- C5: `should_use_api_model_for_templates` is true exactly when
`get_template_llm_provider` on the same inputs yields `LLMProvider.OPENAI`,
for every override setting and content provider. -/
theorem should_use_api_iff (s : Option String) (c : LLMProvider) :
    should_use_api_model_for_templates s c = true ↔
      get_template_llm_provider s c = LLMProvider.OPENAI := by
  unfold should_use_api_model_for_templates
  generalize get_template_llm_provider s c = p
  cases p <;> decide

/-- C6: over the declared domain — override setting in {"api", "local", unset}
and content provider in {OPENAI, OLLAMA, CUSTOM} — exactly one of
`should_use_local_model_for_templates` and `should_use_api_model_for_templates`
is true. -/
theorem local_api_mutually_exclusive (s : Option String) (c : LLMProvider)
    (hs : s = some "api" ∨ s = some "local" ∨ s = none)
    (hc : c = LLMProvider.OPENAI ∨ c = LLMProvider.OLLAMA ∨ c = LLMProvider.CUSTOM) :
    xor (should_use_local_model_for_templates s c)
      (should_use_api_model_for_templates s c) = true := by
  rcases hs with rfl | rfl | rfl <;> rcases hc with rfl | rfl | rfl <;> decide

/-- C6 witness: the mutual-exclusivity theorem instantiated at override "api"
and content provider `OPENAI`. -/
theorem local_api_mutually_exclusive_witness :
    xor (should_use_local_model_for_templates (some "api") LLMProvider.OPENAI)
      (should_use_api_model_for_templates (some "api") LLMProvider.OPENAI) = true :=
  local_api_mutually_exclusive (some "api") LLMProvider.OPENAI (Or.inl rfl) (Or.inl rfl)

/-- C7: `get_template_llm_provider` is total over its declared input domain:
every combination of override setting and content provider yields exactly one
provider value. (Purity and absence of side effects are captured by the
embedding itself: the function is a plain total Lean function.) -/
theorem resolve_total_unique (s : Option String) (c : LLMProvider) :
    ∃! r : LLMProvider, get_template_llm_provider s c = r :=
  ⟨get_template_llm_provider s c, rfl, fun _ h => h.symm⟩

/-- C8: `get_template_llm_provider` is deterministic and stateless: two calls
whose override settings agree and whose content providers agree return the
same provider — the result depends on nothing but the two inputs. -/
theorem resolve_deterministic (s₁ : Option String) (c₁ : LLMProvider)
    (s₂ : Option String) (c₂ : LLMProvider) (hs : s₁ = s₂) (hc : c₁ = c₂) :
    get_template_llm_provider s₁ c₁ = get_template_llm_provider s₂ c₂ := by
  rw [hs, hc]

/-- C8 witness: determinism instantiated at override "local" and content
provider `OLLAMA`. -/
theorem resolve_deterministic_witness :
    get_template_llm_provider (some "local") LLMProvider.OLLAMA =
      get_template_llm_provider (some "local") LLMProvider.OLLAMA :=
  resolve_deterministic (some "local") LLMProvider.OLLAMA (some "local")
    LLMProvider.OLLAMA rfl rfl

/-- C9: a failure of either external collaborator propagates unchanged: if the
override-setting lookup fails with `e` the whole call fails with `e` (the
content-provider lookup is never consulted), and if the override-setting
lookup succeeds but the content-provider lookup fails with `e`, the whole call
fails with `e`. No catching, no reinterpretation, no partial result. -/
theorem collaborator_error_propagates {ε : Type} (e : ε)
    (pl : Except ε LLMProvider) (s : Option String) :
    get_template_llm_provider_from (Except.error e) pl = Except.error e ∧
      get_template_llm_provider_from (Except.ok s) (Except.error e) =
        (Except.error e : Except ε LLMProvider) :=
  ⟨rfl, rfl⟩

/-- C10: any override-setting string other than exactly "api" or "local"
(case variants, typos, the empty string) behaves exactly like the unset
case: `get_template_llm_provider` falls through to the default policy. -/
theorem unrecognized_override_falls_through (s : Option String) (c : LLMProvider)
    (h1 : s ≠ some "api") (h2 : s ≠ some "local") :
    get_template_llm_provider s c = get_template_llm_provider none c := by
  unfold get_template_llm_provider
  rw [if_neg h1, if_neg h2]
  simp

/-- C10 witness: the fall-through theorem instantiated at the capitalized
override string "API" and content provider `OLLAMA`. -/
theorem unrecognized_override_falls_through_witness :
    (some "API" : Option String) ≠ some "api" ∧
      (some "API" : Option String) ≠ some "local" ∧
      get_template_llm_provider (some "API") LLMProvider.OLLAMA =
        get_template_llm_provider none LLMProvider.OLLAMA :=
  ⟨by decide, by decide,
    unrecognized_override_falls_through (some "API") LLMProvider.OLLAMA
      (by decide) (by decide)⟩

end TemplateLLMProvider
